import Mathlib

/-!
# Verification of the waha-python HTTP dispatch pipeline

Shallow embedding of the transport core (`waha_python/client.py`) and of the
resource facades (`waha_python/modules/*.py`) that the spec's claims refer to,
together with theorems settling each claim.

Conventions of the embedding:
* Python dicts built by conditional insertion are association lists
  `List (String × Json)` in insertion order.
* `response.json()` either returns a parsed value or raises; this is the
  `json : Option Json` field of `Response` (the parse itself is library code,
  external to the repository).  The text of the decode exception it would
  raise is likewise abstracted into the `json_error_msg` field.
* Raised exceptions become explicit result constructors.
-/

/-- JSON values, as returned by Python's `response.json()`. -/
inductive Json where
  | null
  | bool (b : Bool)
  | num (n : Int)
  | str (s : String)
  | arr (elems : List Json)
  | obj (fields : List (String × Json))

/-- A single-quote character, used by Python's `repr` of strings. -/
def squote : String := String.singleton (Char.ofNat 39)

mutual

/-- Python `repr()` of a JSON-decoded value (string escaping is approximated
by plain quoting; the claims only exercise top-level string fields). -/
def pyRepr : Json → String
  | .null => "None"
  | .bool true => "True"
  | .bool false => "False"
  | .num n => toString n
  | .str s => squote ++ s ++ squote
  | .arr xs => "[" ++ pyReprList xs ++ "]"
  | .obj fs => "\x7b" ++ pyReprFields fs ++ "\x7d"

/-- Comma-separated `repr`s of list elements. -/
def pyReprList : List Json → String
  | [] => ""
  | [x] => pyRepr x
  | x :: xs => pyRepr x ++ ", " ++ pyReprList xs

/-- Comma-separated `repr`s of dict entries. -/
def pyReprFields : List (String × Json) → String
  | [] => ""
  | [(k, v)] => squote ++ k ++ squote ++ ": " ++ pyRepr v
  | (k, v) :: fs => squote ++ k ++ squote ++ ": " ++ pyRepr v ++ ", " ++ pyReprFields fs

end

/-- Python `str()` of a JSON-decoded value, as an f-string renders it:
strings render bare, containers via `repr` of their elements. -/
def pyStr : Json → String
  | .str s => s
  | v => pyRepr v

/-- `"pat" in s` for Python strings: substring containment. -/
def strContains (s pat : String) : Bool :=
  (List.range (s.data.length + 1)).any (fun i => pat.data.isPrefixOf (s.data.drop i))

/-- `headers.get(key, default)` on a header mapping. -/
def headersGet (hs : List (String × String)) (key dflt : String) : String :=
  match hs.lookup key with
  | some v => v
  | none => dflt

/-- An HTTP response as seen by `WAHAClient._handle_response`: status code,
final URL, headers, and the three body views `requests` exposes
(`.json()` abstracted as `json`, `.text`, `.content`). -/
structure Response where
  status_code : Nat
  url : String
  headers : List (String × String)
  /-- `some v` when `response.json()` parses the body as `v`; `none` when it raises. -/
  json : Option Json
  /-- `str()` of the decode exception `response.json()` raises when `json = none`. -/
  json_error_msg : String
  text : String
  content : List Nat

/-- A successfully decoded response body: one of a JSON value, raw bytes, raw text. -/
inductive DecodedBody where
  | json (j : Json)
  | bytes (b : List Nat)
  | text (s : String)

/-- The flat exception taxonomy of `waha_python/exceptions.py`, each
carrying its message. -/
inductive WAHAError where
  | authenticationError (msg : String)
  | notFoundError (msg : String)
  | rateLimitError (msg : String)
  | serverError (msg : String)
  | clientError (msg : String)
deriving Repr, DecidableEq

/-- Outcome of `_handle_response`: a returned value, a raised `WAHAError`, or
the JSON decode exception escaping from `response.json()` in the success
branch (caught further up, in `request`). -/
inductive HandleResult where
  | success (body : DecodedBody)
  | failure (e : WAHAError)
  | jsonDecodeError (msg : String)

/-- The `>=500` branch's message extraction:
`error_msg = "Server error"`, then `try: error_msg = response.json().get("message", error_msg) except: pass`.
A non-dict JSON body makes `.get` raise `AttributeError`, leaving the default. -/
def serverErrorMsg (r : Response) : String :=
  match r.json with
  | some (.obj fs) =>
      match fs.lookup "message" with
      | some v => pyStr v
      | none => "Server error"
  | _ => "Server error"

/-- The `>=400` branch's message extraction:
`error_msg = "Unknown error"`, then
`try: error_msg = response.json().get("message", error_msg) except: error_msg = response.text`. -/
def clientErrorMsg (r : Response) : String :=
  match r.json with
  | some (.obj fs) =>
      match fs.lookup "message" with
      | some v => pyStr v
      | none => "Unknown error"
  | _ => r.text

/-- `WAHAClient._handle_response` (client.py lines 148-203). -/
def handle_response (r : Response) : HandleResult :=
  if r.status_code = 401 then
    .failure (.authenticationError "Authentication failed. Please check your API key.")
  else if r.status_code = 404 then
    .failure (.notFoundError ("Resource not found: " ++ r.url))
  else if r.status_code = 429 then
    .failure (.rateLimitError "Rate limit exceeded. Please try again later.")
  else if 500 ≤ r.status_code then
    .failure (.serverError (serverErrorMsg r ++ " (Status: " ++ toString r.status_code ++ ")"))
  else if r.status_code = 200 ∨ r.status_code = 201 ∨ r.status_code = 204 then
    let content_type := headersGet r.headers "Content-Type" ""
    if strContains content_type "application/json" then
      match r.json with
      | some j => .success (.json j)
      | none => .jsonDecodeError r.json_error_msg
    else if strContains content_type "image/" || strContains content_type "application/octet-stream" then
      .success (.bytes r.content)
    else
      .success (.text r.text)
  else if 400 ≤ r.status_code then
    .failure (.clientError (clientErrorMsg r ++ " (Status: " ++ toString r.status_code ++ ")"))
  else
    .success (.text r.text)

/-- Python's `s.rstrip("/")`: remove every trailing slash character. -/
def rstripSlash (s : String) : String :=
  String.mk ((s.data.reverse.dropWhile (fun c => c == '/')).reverse)

/-- The state a constructed `WAHAClient` holds: the stored configuration and
the default headers installed on the `requests` session by `_setup_session`. -/
structure WAHAClient where
  base_url : String
  api_key : Option String
  timeout : Nat
  session_headers : List (String × String)

/-- `WAHAClient.__init__` together with `_setup_session` (client.py lines
56-98): strips trailing slashes from `base_url`, stores the key and timeout,
installs the two default headers, and adds `X-Api-Key` only when `api_key`
is truthy (neither `None` nor the empty string). -/
def WAHAClient.init (base_url : String) (api_key : Option String) (timeout : Nat) :
    WAHAClient :=
  { base_url := rstripSlash base_url
    api_key := api_key
    timeout := timeout
    session_headers :=
      [("Content-Type", "application/json"), ("Accept", "application/json")] ++
        (match api_key with
          | some k => if k = "" then [] else [("X-Api-Key", k)]
          | none => []) }

/-- The URL built by `WAHAClient.request` (client.py line 128): plain
concatenation of the stored base URL and the endpoint. -/
def WAHAClient.request_url (c : WAHAClient) (endpoint : String) : String :=
  c.base_url ++ endpoint

/-- The `requests` exceptions distinguished by `WAHAClient.request`'s three
handlers (client.py lines 141-146), each carrying the rendered exception text. -/
inductive TransportExc where
  | timeout (e : String)
  | connectionError (e : String)
  | requestException (e : String)

/-- What the underlying `session.request` call does: return a response, or
raise one of the `requests` exceptions. -/
inductive TransportOutcome where
  | response (r : Response)
  | exc (e : TransportExc)

/-- `WAHAClient.request` (client.py lines 100-146), as a function of the
transport's outcome: a response goes to `_handle_response`, and every
`requests` exception is converted into a `WAHAClientError`.  A JSON decode
error raised inside `_handle_response` is itself a `RequestException` and is
caught by the last handler. -/
def WAHAClient.request (_c : WAHAClient) (outcome : TransportOutcome) : HandleResult :=
  match outcome with
  | .response r =>
      match handle_response r with
      | .jsonDecodeError m => .failure (.clientError ("Request failed: " ++ m))
      | h => h
  | .exc (.timeout e) => .failure (.clientError ("Request timeout: " ++ e))
  | .exc (.connectionError e) => .failure (.clientError ("Connection error: " ++ e))
  | .exc (.requestException e) => .failure (.clientError ("Request failed: " ++ e))

/-- The arguments a facade method hands to `WAHAClient.request`: HTTP method,
endpoint, query params, JSON body, and the per-call header overrides passed
through the `headers` kwarg (`none` when that kwarg is not passed at all). -/
structure FacadeRequest where
  method : String
  endpoint : String
  params : Option (List (String × Json))
  json_data : Option (List (String × Json))
  headers : Option (List (String × String))

namespace MessagesModule

/-- `MessagesModule.send_text` (modules/messages.py lines 14-63): the request
it builds.  Optional keys are inserted by Python truthiness: `reply_to` and
`mentions` when truthy, `linkPreview` as `False` when `link_preview` is falsy,
`linkPreviewHighQuality` as `True` when that flag is truthy. -/
def send_text (session chat_id text : String) (reply_to : Option String)
    (mentions : Option (List String)) (link_preview : Bool)
    (link_preview_high_quality : Bool) : FacadeRequest :=
  let data := [("session", Json.str session), ("chatId", Json.str chat_id),
    ("text", Json.str text)]
  let data := match reply_to with
    | some rt => if rt = "" then data else data ++ [("reply_to", Json.str rt)]
    | none => data
  let data := match mentions with
    | some ms => if ms = [] then data else data ++ [("mentions", Json.arr (ms.map Json.str))]
    | none => data
  let data := if link_preview then data else data ++ [("linkPreview", Json.bool false)]
  let data := if link_preview_high_quality then
      data ++ [("linkPreviewHighQuality", Json.bool true)]
    else data
  { method := "POST", endpoint := "/api/sendText", params := none,
    json_data := some data, headers := none }

/-- `MessagesModule.send_seen` (modules/messages.py lines 65-102): inserts
`messageIds` and `participant` by Python truthiness. -/
def send_seen (session chat_id : String) (message_ids : Option (List String))
    (participant : Option String) : FacadeRequest :=
  let data := [("session", Json.str session), ("chatId", Json.str chat_id)]
  let data := match message_ids with
    | some ids => if ids = [] then data else data ++ [("messageIds", Json.arr (ids.map Json.str))]
    | none => data
  let data := match participant with
    | some p => if p = "" then data else data ++ [("participant", Json.str p)]
    | none => data
  { method := "POST", endpoint := "/api/sendSeen", params := none,
    json_data := some data, headers := none }

end MessagesModule

namespace SessionsModule

/-- `SessionsModule.list` (modules/sessions.py lines 16-36):
the params dict is built only when `all_sessions` is truthy. -/
def list (all_sessions : Bool) : FacadeRequest :=
  { method := "GET", endpoint := "/api/sessions",
    params := if all_sessions then some [("all", Json.bool all_sessions)] else none,
    json_data := none, headers := none }

/-- `SessionsModule.get_qr` (modules/sessions.py lines 225-265): both branches
dispatch a GET of the same endpoint with the same `format` param, and neither
passes a `headers` kwarg; the flag (or a raw format) only selects which branch
of the Python code returns. -/
def get_qr (session_name : String) (format : String) (accept_json : Bool) :
    FacadeRequest :=
  let endpoint := "/api/" ++ session_name ++ "/auth/qr"
  let params := some [("format", Json.str format)]
  if accept_json || format == "raw" then
    { method := "GET", endpoint := endpoint, params := params,
      json_data := none, headers := none }
  else
    { method := "GET", endpoint := endpoint, params := params,
      json_data := none, headers := none }

/-- `SessionsModule.get_screenshot` (modules/sessions.py lines 288-321):
passes the header override `Accept: application/json` exactly when
`accept_json` is set. -/
def get_screenshot (session_name : String) (accept_json : Bool) : FacadeRequest :=
  let params := some [("session", Json.str session_name)]
  if accept_json then
    { method := "GET", endpoint := "/api/screenshot", params := params,
      json_data := none, headers := some [("Accept", "application/json")] }
  else
    { method := "GET", endpoint := "/api/screenshot", params := params,
      json_data := none, headers := none }

end SessionsModule

namespace ChatsModule

/-- `ChatsModule.list` (modules/chats.py lines 14-42): includes `limit` and
`offset` whenever they are not `None`, and passes `params=None` when the dict
stays empty. -/
def list (session : String) (limit : Option Int) (offset : Option Int) :
    FacadeRequest :=
  let params : List (String × Json) :=
    (match limit with | some l => [("limit", Json.num l)] | none => []) ++
      (match offset with | some o => [("offset", Json.num o)] | none => [])
  { method := "GET", endpoint := "/api/" ++ session ++ "/chats",
    params := if params.isEmpty then none else some params,
    json_data := none, headers := none }

/-- `ChatsModule.get_picture` (modules/chats.py lines 61-86): passes the
header override `Accept: application/json` exactly when `accept_json` is set. -/
def get_picture (session chat_id : String) (accept_json : Bool) : FacadeRequest :=
  let endpoint := "/api/" ++ session ++ "/chats/" ++ chat_id ++ "/picture"
  if accept_json then
    { method := "GET", endpoint := endpoint, params := none, json_data := none,
      headers := some [("Accept", "application/json")] }
  else
    { method := "GET", endpoint := endpoint, params := none, json_data := none,
      headers := none }

end ChatsModule

/-- The keys of a facade request's JSON body, in insertion order. -/
def FacadeRequest.body_keys (req : FacadeRequest) : List String :=
  (req.json_data.getD []).map Prod.fst

/-- The keys of a facade request's query params, in insertion order
(empty when no params dict is passed). -/
def FacadeRequest.param_keys (req : FacadeRequest) : List String :=
  (req.params.getD []).map Prod.fst

/-! ## Helper lemmas -/

/-- The head surviving `dropWhile` falsifies the predicate. -/
theorem head?_dropWhile_false (p : Char → Bool) :
    ∀ (l : List Char) (c : Char), (l.dropWhile p).head? = some c → p c = false := by
  intro l
  induction l with
  | nil => intro c hc; simp [List.dropWhile] at hc
  | cons a t ih =>
    intro c hc
    by_cases hp : p a
    · rw [List.dropWhile_cons, if_pos hp] at hc
      exact ih c hc
    · rw [List.dropWhile_cons, if_neg hp] at hc
      simp only [List.head?_cons, Option.some.injEq] at hc
      subst hc
      simpa using hp

/-- `rstripSlash` output never ends with a slash. -/
theorem rstripSlash_no_trailing (s : String) :
    (rstripSlash s).data.getLast? ≠ some '/' := by
  intro h
  have h' : ((s.data.reverse.dropWhile (fun c => c == '/')).reverse).getLast? = some '/' := h
  rw [List.getLast?_reverse] at h'
  have := head?_dropWhile_false (fun c => c == '/') s.data.reverse '/' h'
  simp at this

/-- The input is the `rstripSlash` output followed by some run of slashes. -/
theorem rstripSlash_append (s : String) :
    ∃ k, s.data = (rstripSlash s).data ++ List.replicate k '/' := by
  refine ⟨(s.data.reverse.takeWhile (fun c => c == '/')).length, ?_⟩
  have hsplit :
      s.data.reverse.takeWhile (fun c => c == '/') ++
        s.data.reverse.dropWhile (fun c => c == '/') = s.data.reverse :=
    List.takeWhile_append_dropWhile _ _
  have htw : s.data.reverse.takeWhile (fun c => c == '/') =
      List.replicate (s.data.reverse.takeWhile (fun c => c == '/')).length '/' := by
    rw [List.eq_replicate_iff]
    refine ⟨rfl, fun b hb => ?_⟩
    have := List.mem_takeWhile_imp hb
    simpa using this
  calc s.data = s.data.reverse.reverse := by rw [List.reverse_reverse]
    _ = (s.data.reverse.takeWhile (fun c => c == '/') ++
          s.data.reverse.dropWhile (fun c => c == '/')).reverse := by rw [hsplit]
    _ = (s.data.reverse.dropWhile (fun c => c == '/')).reverse ++
          (s.data.reverse.takeWhile (fun c => c == '/')).reverse := by
            rw [List.reverse_append]
    _ = (rstripSlash s).data ++ (s.data.reverse.takeWhile (fun c => c == '/')).reverse := rfl
    _ = (rstripSlash s).data ++
          List.replicate (s.data.reverse.takeWhile (fun c => c == '/')).length '/' := by
            rw [← List.reverse_replicate, ← htw]

/-! ## Claims -/

/-- C2: every response with status code 401 makes the dispatch pipeline raise
`WAHAAuthenticationError`, regardless of the response body; no other outcome
is possible for a 401. -/
theorem c2_status_401_authentication (r : Response) (h : r.status_code = 401) :
    handle_response r =
      .failure (.authenticationError "Authentication failed. Please check your API key.") := by
  simp [handle_response, h]

/-- Witness for C2: a concrete 401 response with a non-empty body. -/
theorem c2_status_401_authentication_witness :
    handle_response
      { status_code := 401, url := "http://localhost:3000/api/sessions",
        headers := [("Content-Type", "text/plain")], json := none,
        json_error_msg := "no json", text := "some body", content := [1, 2] } =
      .failure (.authenticationError "Authentication failed. Please check your API key.") :=
  c2_status_401_authentication _ rfl

/-- C4: every response with status code 404 makes the dispatch pipeline raise
`WAHANotFoundError`, and the error message includes the requested URL. -/
theorem c4_status_404_not_found (r : Response) (h : r.status_code = 404) :
    handle_response r = .failure (.notFoundError ("Resource not found: " ++ r.url)) ∧
    ∃ pre post, "Resource not found: " ++ r.url = pre ++ r.url ++ post :=
  ⟨by simp [handle_response, h], ⟨"Resource not found: ", "", by simp⟩⟩

/-- Witness for C4: a concrete 404 response. -/
theorem c4_status_404_not_found_witness :
    handle_response
      { status_code := 404, url := "http://localhost:3000/api/missing",
        headers := [], json := none, json_error_msg := "", text := "", content := [] } =
      .failure (.notFoundError "Resource not found: http://localhost:3000/api/missing") :=
  (c4_status_404_not_found _ rfl).1

/-- C3: every response with status >= 500 makes the pipeline raise
`WAHAServerError` whose message is the JSON body's message field when the body
parses as an object carrying one, else the generic "Server error", annotated
with the status code; in particular a 500 with body carrying message X yields
exactly "X (Status: 500)". -/
theorem c3_server_error_message (r : Response) (h : 500 ≤ r.status_code) :
    handle_response r =
      .failure (.serverError
        (serverErrorMsg r ++ " (Status: " ++ toString r.status_code ++ ")")) ∧
    (∀ fs m, r.json = some (.obj fs) → fs.lookup "message" = some (.str m) →
      serverErrorMsg r = m) ∧
    (r.json = none → serverErrorMsg r = "Server error") := by
  have h401 : r.status_code ≠ 401 := by omega
  have h404 : r.status_code ≠ 404 := by omega
  have h429 : r.status_code ≠ 429 := by omega
  refine ⟨by simp [handle_response, h401, h404, h429, h], ?_, ?_⟩
  · intro fs m hj hm
    simp [serverErrorMsg, hj, hm, pyStr]
  · intro hj
    simp [serverErrorMsg, hj]

/-- Witness for C3: the spec's example, a 500 whose JSON body is an object
mapping message to X. -/
theorem c3_server_error_message_witness :
    handle_response
      { status_code := 500, url := "http://localhost:3000/api/sessions",
        headers := [("Content-Type", "application/json")],
        json := some (.obj [("message", Json.str "X")]), json_error_msg := "",
        text := "", content := [] } =
      .failure (.serverError "X (Status: 500)") := by
  have h := c3_server_error_message
    { status_code := 500, url := "http://localhost:3000/api/sessions",
      headers := [("Content-Type", "application/json")],
      json := some (.obj [("message", Json.str "X")]), json_error_msg := "",
      text := "", content := [] } (by norm_num)
  rw [h.1]
  rfl

/-- C1: every response with status 200, 201 or 204 is decoded by its
Content-Type header: a content type containing application/json yields the
parsed JSON value, one containing image/ or application/octet-stream yields
the exact raw bytes, anything else the raw text. -/
theorem c1_success_decode (r : Response)
    (h : r.status_code = 200 ∨ r.status_code = 201 ∨ r.status_code = 204) :
    (∀ j, strContains (headersGet r.headers "Content-Type" "") "application/json" = true →
      r.json = some j → handle_response r = .success (.json j)) ∧
    (strContains (headersGet r.headers "Content-Type" "") "application/json" = false →
      (strContains (headersGet r.headers "Content-Type" "") "image/" = true ∨
        strContains (headersGet r.headers "Content-Type" "") "application/octet-stream" = true) →
      handle_response r = .success (.bytes r.content)) ∧
    (strContains (headersGet r.headers "Content-Type" "") "application/json" = false →
      strContains (headersGet r.headers "Content-Type" "") "image/" = false →
      strContains (headersGet r.headers "Content-Type" "") "application/octet-stream" = false →
      handle_response r = .success (.text r.text)) := by
  have h401 : r.status_code ≠ 401 := by omega
  have h404 : r.status_code ≠ 404 := by omega
  have h429 : r.status_code ≠ 429 := by omega
  have h500 : ¬ 500 ≤ r.status_code := by omega
  refine ⟨?_, ?_, ?_⟩
  · intro j hct hj
    simp [handle_response, h401, h404, h429, h500, h, hct, hj]
  · intro hct him
    rcases him with him | him <;>
      simp [handle_response, h401, h404, h429, h500, h, hct, him]
  · intro hct h1 h2
    simp [handle_response, h401, h404, h429, h500, h, hct, h1, h2]

/-- Witness for C1: the spec's example, a 200 with JSON content type whose
body parses to an object mapping a to 1; and a 200 image response returning
its bytes untouched. -/
theorem c1_success_decode_witness :
    handle_response
      { status_code := 200, url := "u",
        headers := [("Content-Type", "application/json")],
        json := some (.obj [("a", Json.num 1)]), json_error_msg := "",
        text := "", content := [] } =
      .success (.json (.obj [("a", Json.num 1)])) ∧
    handle_response
      { status_code := 200, url := "u",
        headers := [("Content-Type", "image/jpeg")],
        json := none, json_error_msg := "", text := "",
        content := [255, 216, 255] } =
      .success (.bytes [255, 216, 255]) := by
  constructor
  · exact (c1_success_decode _ (Or.inl rfl)).1 _ (by decide) rfl
  · exact (c1_success_decode _ (Or.inl rfl)).2.1 (by decide) (Or.inl (by decide))

/-- C5 counterexample: at a 400 response whose body is not parseable JSON, the
raised message carries the raw body text ("upstream exploded"), while the
ServerError-style extraction of the same response would give the generic
"Server error"; so the message is not extracted the same way as ServerError. -/
theorem c5_counterexample :
    handle_response
      { status_code := 400, url := "http://localhost:3000/api/x",
        headers := [], json := none, json_error_msg := "bad json",
        text := "upstream exploded", content := [] } =
      .failure (.clientError "upstream exploded (Status: 400)") ∧
    serverErrorMsg
      { status_code := 400, url := "http://localhost:3000/api/x",
        headers := [], json := none, json_error_msg := "bad json",
        text := "upstream exploded", content := [] } = "Server error" ∧
    "upstream exploded (Status: 400)" ≠ "Server error (Status: 400)" :=
  ⟨rfl, rfl, by decide⟩

/-- C5 (amended): every response with status in 400..499 other than 401, 404
and 429 makes the pipeline raise `WAHAClientError`, annotated with the status
code, whose message is the JSON body's message field when the body parses as
an object carrying one, "Unknown error" when it parses as an object without
one, and the raw response text otherwise. -/
theorem c5_client_error_message (r : Response) (h4 : 400 ≤ r.status_code)
    (h5 : r.status_code < 500) (h401 : r.status_code ≠ 401)
    (h404 : r.status_code ≠ 404) (h429 : r.status_code ≠ 429) :
    handle_response r =
      .failure (.clientError
        (clientErrorMsg r ++ " (Status: " ++ toString r.status_code ++ ")")) ∧
    (∀ fs m, r.json = some (.obj fs) → fs.lookup "message" = some (.str m) →
      clientErrorMsg r = m) ∧
    (∀ fs, r.json = some (.obj fs) → fs.lookup "message" = none →
      clientErrorMsg r = "Unknown error") ∧
    (r.json = none → clientErrorMsg r = r.text) := by
  have h500 : ¬ 500 ≤ r.status_code := by omega
  have hok : ¬ (r.status_code = 200 ∨ r.status_code = 201 ∨ r.status_code = 204) := by
    omega
  refine ⟨by simp [handle_response, h401, h404, h429, h500, hok, h4], ?_, ?_, ?_⟩
  · intro fs m hj hm
    simp [clientErrorMsg, hj, hm, pyStr]
  · intro fs hj hm
    simp [clientErrorMsg, hj, hm]
  · intro hj
    simp [clientErrorMsg, hj]

/-- Witness for C5 (amended): a concrete 422 response whose JSON body carries
a message field. -/
theorem c5_client_error_message_witness :
    handle_response
      { status_code := 422, url := "u", headers := [],
        json := some (.obj [("message", Json.str "bad payload")]),
        json_error_msg := "", text := "ignored", content := [] } =
      .failure (.clientError "bad payload (Status: 422)") := by
  have h := c5_client_error_message
    { status_code := 422, url := "u", headers := [],
      json := some (.obj [("message", Json.str "bad payload")]),
      json_error_msg := "", text := "ignored", content := [] }
    (by norm_num) (by norm_num) (by norm_num) (by norm_num) (by norm_num)
  rw [h.1]
  rfl

/-- C6: every transport-level exception raised during dispatch (timeout,
connection error, any other request exception) is caught by `request` and
converted into a `WAHAClientError` with a descriptive message; no transport
exception reaches the caller unclassified. -/
theorem c6_transport_errors_classified (c : WAHAClient) :
    (∀ e, c.request (.exc (.timeout e)) =
      .failure (.clientError ("Request timeout: " ++ e))) ∧
    (∀ e, c.request (.exc (.connectionError e)) =
      .failure (.clientError ("Connection error: " ++ e))) ∧
    (∀ e, c.request (.exc (.requestException e)) =
      .failure (.clientError ("Request failed: " ++ e))) ∧
    (∀ ex, ∃ msg, c.request (.exc ex) = .failure (.clientError msg)) := by
  refine ⟨fun e => rfl, fun e => rfl, fun e => rfl, fun ex => ?_⟩
  cases ex with
  | timeout e => exact ⟨"Request timeout: " ++ e, rfl⟩
  | connectionError e => exact ⟨"Connection error: " ++ e, rfl⟩
  | requestException e => exact ⟨"Request failed: " ++ e, rfl⟩

/-- Witness for C6: a concrete client and a concrete timeout exception. -/
theorem c6_transport_errors_classified_witness :
    (WAHAClient.init "http://localhost:3000" none 30).request
      (.exc (.timeout "HTTPConnectionPool: Read timed out.")) =
      .failure (.clientError "Request timeout: HTTPConnectionPool: Read timed out.") :=
  (c6_transport_errors_classified _).1 _

/-- C7: for all constructor inputs the stored base_url has every trailing
slash of the input stripped (in particular it never ends in a slash), the
session's default headers carry X-Api-Key exactly when api_key was supplied
non-empty (and then with that key as the value), and the URL dispatched for a
path is exactly the concatenation of base_url and the path. -/
theorem c7_constructor_invariants (base_url : String) (api_key : Option String)
    (timeout : Nat) :
    (WAHAClient.init base_url api_key timeout).base_url.data.getLast? ≠ some '/' ∧
    (∃ k, base_url.data =
      (WAHAClient.init base_url api_key timeout).base_url.data ++
        List.replicate k '/') ∧
    (((WAHAClient.init base_url api_key timeout).session_headers.lookup
        "X-Api-Key").isSome = true ↔ ∃ k, api_key = some k ∧ k ≠ "") ∧
    (∀ k, api_key = some k → k ≠ "" →
      (WAHAClient.init base_url api_key timeout).session_headers.lookup
        "X-Api-Key" = some k) ∧
    (∀ endpoint, (WAHAClient.init base_url api_key timeout).request_url endpoint =
      (WAHAClient.init base_url api_key timeout).base_url ++ endpoint) := by
  refine ⟨rstripSlash_no_trailing base_url, rstripSlash_append base_url, ?_, ?_,
    fun _ => rfl⟩
  · cases api_key with
    | none => simp [WAHAClient.init, List.lookup]
    | some k =>
      by_cases hk : k = ""
      · simp [WAHAClient.init, List.lookup, hk]
      · simp [WAHAClient.init, List.lookup, hk]
  · intro k hk hne
    subst hk
    simp [WAHAClient.init, List.lookup, hne]

/-- Witness for C7: a base URL with two trailing slashes and a non-empty key. -/
theorem c7_constructor_invariants_witness :
    (WAHAClient.init "http://localhost:3000//" (some "secret") 30).base_url.data.getLast? ≠
      some '/' ∧
    (WAHAClient.init "http://localhost:3000//" (some "secret") 30).session_headers.lookup
      "X-Api-Key" = some "secret" ∧
    (WAHAClient.init "http://localhost:3000//" (some "secret") 30).request_url
      "/api/sessions" =
      (WAHAClient.init "http://localhost:3000//" (some "secret") 30).base_url ++
        "/api/sessions" := by
  refine ⟨(c7_constructor_invariants _ _ _).1, ?_,
    (c7_constructor_invariants _ _ _).2.2.2.2 _⟩
  exact (c7_constructor_invariants "http://localhost:3000//" (some "secret") 30).2.2.2.1
    "secret" rfl (by decide)

/-- C8: send_text dispatches POST /api/sendText with a JSON body whose keys
stay within session, chatId, text and the four optional keys; session, chatId
and text are always present, and each optional key is absent whenever its
parameter was left at its default value (hence present only when supplied). -/
theorem c8_send_text_payload (session chat_id text : String)
    (reply_to : Option String) (mentions : Option (List String))
    (link_preview link_preview_high_quality : Bool) :
    (MessagesModule.send_text session chat_id text reply_to mentions
      link_preview link_preview_high_quality).method = "POST" ∧
    (MessagesModule.send_text session chat_id text reply_to mentions
      link_preview link_preview_high_quality).endpoint = "/api/sendText" ∧
    "session" ∈ (MessagesModule.send_text session chat_id text reply_to mentions
      link_preview link_preview_high_quality).body_keys ∧
    "chatId" ∈ (MessagesModule.send_text session chat_id text reply_to mentions
      link_preview link_preview_high_quality).body_keys ∧
    "text" ∈ (MessagesModule.send_text session chat_id text reply_to mentions
      link_preview link_preview_high_quality).body_keys ∧
    (∀ k ∈ (MessagesModule.send_text session chat_id text reply_to mentions
      link_preview link_preview_high_quality).body_keys,
      k ∈ (["session", "chatId", "text", "reply_to", "mentions", "linkPreview",
        "linkPreviewHighQuality"] : List String)) ∧
    (reply_to = none → "reply_to" ∉ (MessagesModule.send_text session chat_id text
      reply_to mentions link_preview link_preview_high_quality).body_keys) ∧
    (mentions = none → "mentions" ∉ (MessagesModule.send_text session chat_id text
      reply_to mentions link_preview link_preview_high_quality).body_keys) ∧
    (link_preview = true → "linkPreview" ∉ (MessagesModule.send_text session chat_id
      text reply_to mentions link_preview link_preview_high_quality).body_keys) ∧
    (link_preview_high_quality = false →
      "linkPreviewHighQuality" ∉ (MessagesModule.send_text session chat_id text
        reply_to mentions link_preview link_preview_high_quality).body_keys) := by
  rcases reply_to with _ | rt <;> rcases mentions with _ | ms <;>
    cases link_preview <;> cases link_preview_high_quality <;>
    first
      | (by_cases hrt : rt = "" <;> by_cases hms : ms = [] <;>
          simp +decide [MessagesModule.send_text, FacadeRequest.body_keys, hrt, hms])
      | (by_cases hrt : rt = "" <;>
          simp +decide [MessagesModule.send_text, FacadeRequest.body_keys, hrt])
      | (by_cases hms : ms = [] <;>
          simp +decide [MessagesModule.send_text, FacadeRequest.body_keys, hms])
      | simp +decide [MessagesModule.send_text, FacadeRequest.body_keys]

/-- Witness for C8: with every optional parameter at its default, the body
has the three required keys and none of the optional ones. -/
theorem c8_send_text_payload_witness :
    "session" ∈ (MessagesModule.send_text "default" "123@c.us" "hello" none none
      true false).body_keys ∧
    "reply_to" ∉ (MessagesModule.send_text "default" "123@c.us" "hello" none none
      true false).body_keys ∧
    "linkPreview" ∉ (MessagesModule.send_text "default" "123@c.us" "hello" none none
      true false).body_keys ∧
    "linkPreviewHighQuality" ∉ (MessagesModule.send_text "default" "123@c.us" "hello"
      none none true false).body_keys := by
  refine ⟨(c8_send_text_payload "default" "123@c.us" "hello" none none true false).2.2.1,
    (c8_send_text_payload "default" "123@c.us" "hello" none none true false).2.2.2.2.2.2.1
      rfl,
    (c8_send_text_payload "default" "123@c.us" "hello" none none true false).2.2.2.2.2.2.2.2.1
      rfl,
    (c8_send_text_payload "default" "123@c.us" "hello" none none true false).2.2.2.2.2.2.2.2.2
      rfl⟩

/-- C9 counterexample: in sessions.get_qr the accept_json flag does not change
the dispatched request at all; with the image format both flag values build
the very same request, with no header override in either case.  So the flag
does not set the Accept header in all three binary-capable operations. -/
theorem c9_counterexample :
    SessionsModule.get_qr "default" "image" true =
      SessionsModule.get_qr "default" "image" false ∧
    (SessionsModule.get_qr "default" "image" true).headers = none := by
  constructor
  · rfl
  · rfl

/-- C9 (amended): the accept_json flag sets the Accept header override to
application/json in chats.get_picture and sessions.get_screenshot (and with
the flag unset neither passes a header override), while in sessions.get_qr
the flag, at any fixed format, leaves the dispatched request, headers
included, completely unchanged. -/
theorem c9_accept_json_flag (session chat_id session_name qr_session fmt : String) :
    (ChatsModule.get_picture session chat_id true).headers =
      some [("Accept", "application/json")] ∧
    (ChatsModule.get_picture session chat_id false).headers = none ∧
    (SessionsModule.get_screenshot session_name true).headers =
      some [("Accept", "application/json")] ∧
    (SessionsModule.get_screenshot session_name false).headers = none ∧
    ∀ b₁ b₂ : Bool, SessionsModule.get_qr qr_session fmt b₁ =
      SessionsModule.get_qr qr_session fmt b₂ := by
  refine ⟨rfl, rfl, rfl, rfl, ?_⟩
  intro b₁ b₂
  cases b₁ <;> cases b₂ <;> simp [SessionsModule.get_qr]

/-- Witness for C9 (amended) at concrete facade arguments. -/
theorem c9_accept_json_flag_witness :
    (ChatsModule.get_picture "default" "123@c.us" true).headers =
      some [("Accept", "application/json")] ∧
    (SessionsModule.get_screenshot "default" false).headers = none ∧
    SessionsModule.get_qr "default" "raw" true =
      SessionsModule.get_qr "default" "raw" false :=
  ⟨(c9_accept_json_flag "default" "123@c.us" "default" "default" "raw").1,
    (c9_accept_json_flag "default" "123@c.us" "default" "default" "raw").2.2.2.1,
    (c9_accept_json_flag "default" "123@c.us" "default" "default" "raw").2.2.2.2 true false⟩

/-- C10 counterexample: supplying the falsy value False for send_text's
link_preview builds a different request from leaving it at its truthy
default: the body gains the linkPreview key.  So outside chats.list it is not
true that supplying a falsy optional always equals omitting it. -/
theorem c10_counterexample :
    "linkPreview" ∈ (MessagesModule.send_text "default" "123@c.us" "hello" none none
      false false).body_keys ∧
    "linkPreview" ∉ (MessagesModule.send_text "default" "123@c.us" "hello" none none
      true false).body_keys ∧
    MessagesModule.send_text "default" "123@c.us" "hello" none none false false ≠
      MessagesModule.send_text "default" "123@c.us" "hello" none none true false := by
  refine ⟨by simp +decide [MessagesModule.send_text, FacadeRequest.body_keys],
    by simp +decide [MessagesModule.send_text, FacadeRequest.body_keys], ?_⟩
  intro h
  have hk := congrArg FacadeRequest.body_keys h
  simp +decide [MessagesModule.send_text, FacadeRequest.body_keys] at hk

/-- C10 (amended): in the cited facades optional parameters are dropped by
Python truthiness, not by presence: a falsy reply_to, mentions, message_ids
or participant builds exactly the request their omission builds, and
sessions.list with all_sessions False sends no query parameters.  The
exceptions are boolean parameters with a truthy default (send_text's
link_preview, whose key appears exactly when a falsy value is supplied) and
chats.list, which includes limit and offset whenever they are not None, so a
limit of 0 is sent. -/
theorem c10_falsy_omission (session chat_id text : String)
    (reply_to : Option String) (mentions : Option (List String))
    (message_ids : Option (List String)) (participant : Option String)
    (lp lphq : Bool) (limit offset : Option Int) (lv ov : Int) :
    MessagesModule.send_text session chat_id text (some "") mentions lp lphq =
      MessagesModule.send_text session chat_id text none mentions lp lphq ∧
    MessagesModule.send_text session chat_id text reply_to (some []) lp lphq =
      MessagesModule.send_text session chat_id text reply_to none lp lphq ∧
    MessagesModule.send_seen session chat_id (some []) participant =
      MessagesModule.send_seen session chat_id none participant ∧
    MessagesModule.send_seen session chat_id message_ids (some "") =
      MessagesModule.send_seen session chat_id message_ids none ∧
    ("linkPreview" ∈ (MessagesModule.send_text session chat_id text reply_to mentions
      lp lphq).body_keys ↔ lp = false) ∧
    (SessionsModule.list false).params = none ∧
    "limit" ∈ (ChatsModule.list session (some lv) offset).param_keys ∧
    "offset" ∈ (ChatsModule.list session limit (some ov)).param_keys := by
  refine ⟨by simp [MessagesModule.send_text], by simp [MessagesModule.send_text],
    by simp [MessagesModule.send_seen], by simp [MessagesModule.send_seen], ?_, rfl,
    ?_, ?_⟩
  · rcases reply_to with _ | rt <;> rcases mentions with _ | ms <;>
      cases lp <;> cases lphq <;>
      first
        | (by_cases hrt : rt = "" <;> by_cases hms : ms = [] <;>
            simp +decide [MessagesModule.send_text, FacadeRequest.body_keys, hrt, hms])
        | (by_cases hrt : rt = "" <;>
            simp +decide [MessagesModule.send_text, FacadeRequest.body_keys, hrt])
        | (by_cases hms : ms = [] <;>
            simp +decide [MessagesModule.send_text, FacadeRequest.body_keys, hms])
        | simp +decide [MessagesModule.send_text, FacadeRequest.body_keys]
  · rcases offset with _ | o <;>
      simp +decide [ChatsModule.list, FacadeRequest.param_keys]
  · rcases limit with _ | l <;>
      simp +decide [ChatsModule.list, FacadeRequest.param_keys]

/-- Witness for C10 (amended): empty-string reply_to equals omission, and a
limit of 0 is sent by chats.list. -/
theorem c10_falsy_omission_witness :
    MessagesModule.send_text "default" "123@c.us" "hi" (some "") none true false =
      MessagesModule.send_text "default" "123@c.us" "hi" none none true false ∧
    "limit" ∈ (ChatsModule.list "default" (some 0) none).param_keys :=
  ⟨(c10_falsy_omission "default" "123@c.us" "hi" none none none none true false
      none none 0 0).1,
    (c10_falsy_omission "default" "123@c.us" "hi" none none none none true false
      none none 0 0).2.2.2.2.2.2.1⟩
